import Mathlib

/-!
Verification of the noentiendo 6502-class emulator core.

The Rust sources `execute.rs`, `fetch.rs`, `memory/branch.rs` and
`memory/null.rs` are embedded shallowly below.  Machine integers are
modelled as `Nat` with explicit `% 256` / `% 65536` at every point where
the Rust code performs 8-bit or 16-bit arithmetic; integer overflow of
Rust `u8`/`u16` operations is embedded with two's-complement wrapping
semantics (the release-profile behaviour), written as the explicit
modulus.  The modules `registers.rs` and `system.rs` are declared by
`main.rs` but their sources are not available; the operations they
provide (register file, status byte, ALU helpers, stack, bus root) are
modelled from the specification and marked as such in their doc
comments.  Bus reads are total (an unmapped read returns 0), so the
`Result` wrappers of `fetch.rs` always carry `Ok` and are dropped.
-/

/-- Status flag mask: Carry (bit 0). Modelled from the spec: `registers.rs`
is not under src; the spec lists the flag order Carry, Zero,
Interrupt-disable, Decimal, Break, Overflow, Negative with one reserved
always-set bit, the standard 6502 packing. -/
def flags.CARRY : Nat := 0x01

/-- Status flag mask: Zero (bit 1). Modelled from the spec. -/
def flags.ZERO : Nat := 0x02

/-- Status flag mask: Interrupt-disable (bit 2). Modelled from the spec. -/
def flags.INTERRUPT : Nat := 0x04

/-- Status flag mask: Decimal (bit 3). Modelled from the spec. -/
def flags.DECIMAL : Nat := 0x08

/-- Status flag mask: Break (bit 4). Modelled from the spec. -/
def flags.BREAK : Nat := 0x10

/-- Status flag mask: Overflow (bit 6). Modelled from the spec. -/
def flags.OVERFLOW : Nat := 0x40

/-- Status flag mask: Negative (bit 7). Modelled from the spec. -/
def flags.NEGATIVE : Nat := 0x80

/-- The register file of `registers.rs` (source not under src; field names
taken from their uses in `execute.rs`): accumulator, X and Y index, stack
pointer and status register are bytes, the program counter is 16-bit. -/
structure Registers where
  accumulator : Nat
  x_index : Nat
  y_index : Nat
  stack_pointer : Nat
  status_register : Nat
  pc : Nat

/-- Modelled from the spec: `read(flag)` on the status byte tests the
flag's bit. -/
def Registers.status_read (r : Registers) (flag : Nat) : Bool :=
  r.status_register &&& flag != 0

/-- Modelled from the spec: `set(flag)` sets the flag's bit. -/
def Registers.status_set (r : Registers) (flag : Nat) : Registers :=
  { r with status_register := r.status_register ||| flag }

/-- Modelled from the spec: `clear(flag)` clears the flag's bit. -/
def Registers.status_clear (r : Registers) (flag : Nat) : Registers :=
  { r with status_register := r.status_register &&& (0xFF ^^^ flag) }

/-- Modelled from the spec: `write(flag, bool)` sets or clears the flag. -/
def Registers.status_write (r : Registers) (flag : Nat) (b : Bool) : Registers :=
  if b then r.status_set flag else r.status_clear flag

/-- Modelled from the spec: `set_nz(value)` writes Zero from
`value == 0` and Negative from bit 7 of `value`. -/
def Registers.status_set_nz (r : Registers) (value : Nat) : Registers :=
  (r.status_write flags.ZERO (value == 0)).status_write flags.NEGATIVE (value &&& 0x80 != 0)

/-- Modelled from the spec: program-counter `address()` reads the current
value. -/
def Registers.pc_address (r : Registers) : Nat :=
  r.pc

/-- Modelled from the spec: program-counter `increment()`, wrapping modulo
65536. -/
def Registers.pc_increment (r : Registers) : Registers :=
  { r with pc := (r.pc + 1) % 65536 }

/-- Modelled from the spec: program-counter `load(addr)`. -/
def Registers.pc_load (r : Registers) (addr : Nat) : Registers :=
  { r with pc := addr % 65536 }

/-- Modelled from the spec: program-counter `offset(signed_i8)` — wrapping
add of a signed displacement, used by branches. -/
def Registers.pc_offset (r : Registers) (off : Int) : Registers :=
  { r with pc := (((r.pc : Int) + off) % 65536).toNat }

/-- Reinterpret a fetched byte as a signed 8-bit displacement (`as i8`). -/
def toI8 (b : Nat) : Int :=
  if b < 128 then (b : Int) else (b : Int) - 256

/-- Modelled from the spec: `alu_add(value)` — accumulator gets
accumulator + value + Carry as a 9-bit sum; Carry from bit 8, Overflow on
signed overflow, NZ from the 8-bit result. -/
def Registers.alu_add (r : Registers) (value : Nat) : Registers :=
  let carry_in : Nat := if r.status_read flags.CARRY then 1 else 0
  let sum := r.accumulator + value + carry_in
  let result := sum % 256
  let overflow : Bool :=
    ((r.accumulator ^^^ value) &&& 0x80 == 0) && ((r.accumulator ^^^ result) &&& 0x80 != 0)
  let r1 := (r.status_write flags.CARRY (decide (256 ≤ sum))).status_write flags.OVERFLOW overflow
  let r2 := r1.status_set_nz result
  { r2 with accumulator := result }

/-- Modelled from the spec: `alu_subtract(value)` is `alu_add(~value)`. -/
def Registers.alu_subtract (r : Registers) (value : Nat) : Registers :=
  r.alu_add (value ^^^ 0xFF)

/-- Modelled from the spec: `alu_compare(register, value)` — Carry when
`register ≥ value` (unsigned), NZ from the 8-bit difference, the register
itself untouched. -/
def Registers.alu_compare (r : Registers) (reg : Nat) (value : Nat) : Registers :=
  let diff := (reg + 256 - value % 256) % 256
  (r.status_write flags.CARRY (decide (value % 256 ≤ reg))).status_set_nz diff

/-- The System of `system.rs` (source not under src): the register file
plus the root of the address space, modelled per the spec as a total
byte-addressed store. -/
structure System where
  registers : Registers
  memory : Nat → Nat

/-- Modelled from the spec: bus `read(address) -> byte`, total. -/
def System.read (s : System) (addr : Nat) : Nat :=
  s.memory (addr % 65536) % 256

/-- Modelled from the spec: bus `write(address, byte)`, total. -/
def System.write (s : System) (addr value : Nat) : System :=
  { s with memory := fun a => if a = addr % 65536 then value % 256 else s.memory a }

/-- Modelled from the spec: `read_word` dereferences a 16-bit
little-endian pointer. -/
def System.read_word (s : System) (addr : Nat) : Nat :=
  s.read addr ||| (s.read (addr + 1)) <<< 8

/-- Modelled from the spec: push writes to page `0x0100` at the stack
pointer and decrements the stack pointer, wrapping modulo 256. -/
def System.push (s : System) (value : Nat) : System :=
  let s1 := s.write (0x0100 + s.registers.stack_pointer) value
  { s1 with registers := { s1.registers with
      stack_pointer := (s1.registers.stack_pointer + 255) % 256 } }

/-- Modelled from the spec: pop increments the stack pointer, wrapping
modulo 256, and reads from page `0x0100` at the new stack pointer. -/
def System.pop (s : System) : Nat × System :=
  let sp := (s.registers.stack_pointer + 1) % 256
  let s1 := { s with registers := { s.registers with stack_pointer := sp } }
  (s1.read (0x0100 + sp), s1)

/-- `Fetch::fetch` from `fetch.rs`: read the byte at the program counter,
then increment the program counter. -/
def System.fetch (s : System) : Nat × System :=
  (s.read s.registers.pc_address, { s with registers := s.registers.pc_increment })

/-- `Fetch::fetch_word` from `fetch.rs`: low byte first, then high byte. -/
def System.fetch_word (s : System) : Nat × System :=
  let (lo, s1) := s.fetch
  let (hi, s2) := s1.fetch
  ((hi <<< 8) ||| lo, s2)

/-- `Fetch::fetch_zero_page` from `fetch.rs`. -/
def System.fetch_zero_page (s : System) : Nat × System :=
  let (address, s1) := s.fetch
  (s1.read address, s1)

/-- `Fetch::fetch_zero_page_x` from `fetch.rs`: the fetched base byte plus
the X index is a u8 sum, wrapping modulo 256, used as the address. -/
def System.fetch_zero_page_x (s : System) : Nat × System :=
  let (address, s1) := s.fetch
  (s1.read ((address + s1.registers.x_index) % 256), s1)

/-- `Fetch::fetch_zero_page_y` from `fetch.rs`. -/
def System.fetch_zero_page_y (s : System) : Nat × System :=
  let (address, s1) := s.fetch
  (s1.read ((address + s1.registers.y_index) % 256), s1)

/-- `Fetch::fetch_absolute` from `fetch.rs`. -/
def System.fetch_absolute (s : System) : Nat × System :=
  let (address, s1) := s.fetch_word
  (s1.read address, s1)

/-- `Fetch::fetch_absolute_x` from `fetch.rs`: 16-bit wrapping add. -/
def System.fetch_absolute_x (s : System) : Nat × System :=
  let (address, s1) := s.fetch_word
  (s1.read ((address + s1.registers.x_index) % 65536), s1)

/-- `Fetch::fetch_absolute_y` from `fetch.rs`: 16-bit wrapping add. -/
def System.fetch_absolute_y (s : System) : Nat × System :=
  let (address, s1) := s.fetch_word
  (s1.read ((address + s1.registers.y_index) % 65536), s1)

/-- `Fetch::fetch_indirect_x` from `fetch.rs`: zero-page pointer offset by
X, wrapping modulo 256, dereferenced as a 16-bit pointer. -/
def System.fetch_indirect_x (s : System) : Nat × System :=
  let (base, s1) := s.fetch
  let address := (base + s1.registers.x_index) % 256
  let pointer := s1.read_word address
  (s1.read pointer, s1)

/-- `Fetch::fetch_indirect_y` from `fetch.rs`: zero-page pointer
dereferenced as a 16-bit base, plus Y with 16-bit wraparound. -/
def System.fetch_indirect_y (s : System) : Nat × System :=
  let (base, s1) := s.fetch
  let address := s1.read_word base
  (s1.read ((address + s1.registers.y_index) % 65536), s1)

/-- Modelled from the spec: `fetch_operand_value` of `system.rs` (source
not under src) resolves a value-producing addressing mode — immediate,
zero page, zero page indexed, absolute, absolute indexed, indirect — for
the opcode, per the standard 6502 encoding used by the opcode lists of
`execute.rs`. -/
def System.fetch_operand_value (s : System) (opcode : Nat) : Nat × System :=
  match opcode with
  | 0xA9 | 0xA2 | 0xA0 | 0x29 | 0x49 | 0x09 | 0x69 | 0xC9 | 0xE0 | 0xC0 | 0xE9 =>
    s.fetch
  | 0xA5 | 0xA6 | 0xA4 | 0x25 | 0x45 | 0x05 | 0x65 | 0xC5 | 0xE4 | 0xC4 | 0xE5 =>
    s.fetch_zero_page
  | 0xB5 | 0xB4 | 0x35 | 0x55 | 0x15 | 0x75 | 0xD5 | 0xF5 =>
    s.fetch_zero_page_x
  | 0xB6 =>
    s.fetch_zero_page_y
  | 0xAD | 0xAE | 0xAC | 0x2D | 0x4D | 0x0D | 0x6D | 0xCD | 0xEC | 0xCC | 0xED =>
    s.fetch_absolute
  | 0xBD | 0xBC | 0x3D | 0x5D | 0x1D | 0x7D | 0xDD | 0xFD =>
    s.fetch_absolute_x
  | 0xB9 | 0xBE | 0x39 | 0x59 | 0x19 | 0x79 | 0xD9 | 0xF9 =>
    s.fetch_absolute_y
  | 0xA1 | 0x21 | 0x41 | 0x01 | 0x61 | 0xC1 | 0xE1 =>
    s.fetch_indirect_x
  | 0xB1 | 0x31 | 0x51 | 0x11 | 0x71 | 0xD1 | 0xF1 =>
    s.fetch_indirect_y
  | _ => (0, s)

/-- Modelled from the spec: `fetch_operand_address` of `system.rs` (source
not under src) resolves an address-producing mode for the shift/rotate and
increment/decrement opcodes; the accumulator variant yields no address. -/
def System.fetch_operand_address (s : System) (opcode : Nat) : Option Nat × System :=
  match opcode with
  | 0x0A | 0x2A | 0x4A | 0x6A =>
    (none, s)
  | 0x06 | 0x26 | 0x46 | 0x66 | 0xC6 | 0xE6 =>
    let (address, s1) := s.fetch
    (some address, s1)
  | 0x16 | 0x36 | 0x56 | 0x76 | 0xD6 | 0xF6 =>
    let (address, s1) := s.fetch
    (some ((address + s1.registers.x_index) % 256), s1)
  | 0x0E | 0x2E | 0x4E | 0x6E | 0xCE | 0xEE =>
    let (address, s1) := s.fetch_word
    (some address, s1)
  | 0x1E | 0x3E | 0x5E | 0x7E | 0xDE | 0xFE =>
    let (address, s1) := s.fetch_word
    (some ((address + s1.registers.x_index) % 65536), s1)
  | _ => (none, s)

/-- Success or fault signal of `Execute::execute` (`Result<(), ()>`). -/
inductive EResult where
  | ok
  | err
deriving DecidableEq

/-- Instruction selected by the opcode match of `Execute::execute` in
`execute.rs`; each constructor is one arm of the match, `UNIMP` the
default arm. -/
inductive Instr where
  | LDA | LDX | LDY
  | STA | STX | STY
  | TAX | TAY | TSX | TXA | TXS | TYA
  | PHA | PHP | PLA | PLP
  | ASL | LSR | ROL | ROR
  | AND | BIT | EOR | ORA
  | ADC | CMP | CPX | CPY | SBC
  | DEC | DEX | DEY | INC | INX | INY
  | BRK | JMP | JSR | RTI | RTS
  | BRA
  | CLF | SEF
  | NOP
  | UNIMP
deriving DecidableEq

/-- The opcode match of `Execute::execute` in `execute.rs`: the literal
alternatives of each arm, in source order; unlisted bytes take the
default (unimplemented) arm. -/
def decode (opcode : Nat) : Instr :=
  match opcode with
  | 0xA1 | 0xA5 | 0xA9 | 0xAD | 0xB1 | 0xB5 | 0xB9 | 0xBD => .LDA
  | 0xA2 | 0xA6 | 0xAE | 0xB6 | 0xBE => .LDX
  | 0xA0 | 0xA4 | 0xAC | 0xB4 | 0xBC => .LDY
  | 0x81 | 0x85 | 0x8D | 0x91 | 0x95 | 0x99 | 0x9D => .STA
  | 0x86 | 0x8E | 0x96 => .STX
  | 0x84 | 0x8C | 0x94 => .STY
  | 0xAA => .TAX
  | 0xA8 => .TAY
  | 0xBA => .TSX
  | 0x8A => .TXA
  | 0x9A => .TXS
  | 0x98 => .TYA
  | 0x48 => .PHA
  | 0x08 => .PHP
  | 0x68 => .PLA
  | 0x28 => .PLP
  | 0x06 | 0x0A | 0x0E | 0x16 | 0x1E => .ASL
  | 0x46 | 0x4A | 0x4E | 0x56 | 0x5E => .LSR
  | 0x26 | 0x2A | 0x2E | 0x36 | 0x3E => .ROL
  | 0x66 | 0x6A | 0x6E | 0x76 | 0x7E => .ROR
  | 0x21 | 0x25 | 0x29 | 0x2D | 0x31 | 0x35 | 0x39 | 0x3D => .AND
  | 0x24 | 0x2C => .BIT
  | 0x41 | 0x45 | 0x49 | 0x4D | 0x51 | 0x55 | 0x59 | 0x5D => .EOR
  | 0x01 | 0x05 | 0x09 | 0x0D | 0x11 | 0x15 | 0x19 | 0x1D => .ORA
  | 0x61 | 0x65 | 0x69 | 0x6D | 0x71 | 0x75 | 0x79 | 0x7D => .ADC
  | 0xC1 | 0xC5 | 0xC9 | 0xCD | 0xD1 | 0xD5 | 0xD9 | 0xDD => .CMP
  | 0xE0 | 0xE4 | 0xEC => .CPX
  | 0xC0 | 0xC4 | 0xCC => .CPY
  | 0xE1 | 0xE5 | 0xE9 | 0xED | 0xF1 | 0xF5 | 0xF9 | 0xFD => .SBC
  | 0xC6 | 0xCE | 0xD6 | 0xDE => .DEC
  | 0xCA => .DEX
  | 0x88 => .DEY
  | 0xE6 | 0xEE | 0xF6 | 0xFE => .INC
  | 0xE8 => .INX
  | 0xC8 => .INY
  | 0x00 => .BRK
  | 0x4C | 0x6C => .JMP
  | 0x20 => .JSR
  | 0x40 => .RTI
  | 0x60 => .RTS
  | 0x90 | 0xB0 | 0xF0 | 0x30 | 0xD0 | 0x10 | 0x50 | 0x70 => .BRA
  | 0x18 | 0xD8 | 0x58 | 0xB8 => .CLF
  | 0x38 | 0xF8 | 0x78 => .SEF
  | 0xEA => .NOP
  | _ => .UNIMP

/-- The branch condition of the branch arm of `execute.rs`: the
opcode-specific flag test performed after the displacement fetch. -/
def branchCondition (opcode : Nat) (r : Registers) : Bool :=
  match opcode with
  | 0x90 => !(r.status_read flags.CARRY)
  | 0xB0 => r.status_read flags.CARRY
  | 0xF0 => r.status_read flags.ZERO
  | 0x30 => r.status_read flags.NEGATIVE
  | 0xD0 => !(r.status_read flags.ZERO)
  | 0x10 => !(r.status_read flags.NEGATIVE)
  | 0x50 => !(r.status_read flags.OVERFLOW)
  | _ => r.status_read flags.OVERFLOW

/-- `Execute::execute` from `execute.rs`: dispatch one opcode byte against
the system state, returning the success/fault signal and the new state.
Each `Instr` case is the body of the corresponding match arm of the
source; the inner matches on the opcode mirror the source's inner
matches (their unreachable default arms are rendered as a fault). -/
def System.execute (s : System) (opcode : Nat) : EResult × System :=
  match decode opcode with
  | .LDA =>
    let (value, s1) := s.fetch_operand_value opcode
    (.ok, { s1 with registers :=
      ({ s1.registers with accumulator := value }).status_set_nz value })
  | .LDX =>
    let (value, s1) := s.fetch_operand_value opcode
    (.ok, { s1 with registers :=
      ({ s1.registers with x_index := value }).status_set_nz value })
  | .LDY =>
    let (value, s1) := s.fetch_operand_value opcode
    (.ok, { s1 with registers :=
      ({ s1.registers with y_index := value }).status_set_nz value })
  | .STA =>
    let (address, s1) : Nat × System :=
      match opcode with
      | 0x81 =>
        let (base, t1) := s.fetch
        let pointer := (base + t1.registers.x_index) % 256
        (t1.read_word pointer, t1)
      | 0x85 =>
        s.fetch
      | 0x8D =>
        s.fetch_word
      | 0x91 =>
        let (base, t1) := s.fetch
        let pointer := t1.read_word base
        ((pointer + t1.registers.y_index) % 65536, t1)
      | 0x95 =>
        let (base, t1) := s.fetch
        ((base + t1.registers.x_index) % 256, t1)
      | 0x99 =>
        let (base, t1) := s.fetch_word
        ((base + t1.registers.y_index) % 65536, t1)
      | _ =>
        let (base, t1) := s.fetch_word
        ((base + t1.registers.x_index) % 65536, t1)
    (.ok, s1.write address s1.registers.accumulator)
  | .STX =>
    let (address, s1) : Nat × System :=
      match opcode with
      | 0x86 =>
        s.fetch
      | 0x8E =>
        s.fetch_word
      | _ =>
        let (base, t1) := s.fetch
        ((base + t1.registers.y_index) % 256, t1)
    (.ok, s1.write address s1.registers.x_index)
  | .STY =>
    let (address, s1) : Nat × System :=
      match opcode with
      | 0x84 =>
        s.fetch
      | 0x8C =>
        s.fetch_word
      | _ =>
        let (base, t1) := s.fetch
        ((base + t1.registers.x_index) % 256, t1)
    (.ok, s1.write address s1.registers.y_index)
  | .TAX =>
    (.ok, { s with registers :=
      (({ s.registers with x_index := s.registers.accumulator }).status_set_nz
        s.registers.accumulator) })
  | .TAY =>
    (.ok, { s with registers :=
      (({ s.registers with y_index := s.registers.accumulator }).status_set_nz
        s.registers.accumulator) })
  | .TSX =>
    (.ok, { s with registers :=
      (({ s.registers with x_index := s.registers.stack_pointer }).status_set_nz
        s.registers.stack_pointer) })
  | .TXA =>
    (.ok, { s with registers :=
      (({ s.registers with accumulator := s.registers.x_index }).status_set_nz
        s.registers.x_index) })
  | .TXS =>
    (.ok, { s with registers :=
      { s.registers with stack_pointer := s.registers.x_index } })
  | .TYA =>
    (.ok, { s with registers :=
      (({ s.registers with accumulator := s.registers.y_index }).status_set_nz
        s.registers.y_index) })
  | .PHA =>
    (.ok, s.push s.registers.accumulator)
  | .PHP =>
    (.ok, s.push s.registers.status_register)
  | .PLA =>
    let (value, s1) := s.pop
    (.ok, { s1 with registers := { s1.registers with accumulator := value } })
  | .PLP =>
    let (value, s1) := s.pop
    (.ok, { s1 with registers := { s1.registers with status_register := value } })
  | .ASL =>
    let (address, s1) := s.fetch_operand_address opcode
    let value := match address with
      | some a => s1.read a
      | none => s1.registers.accumulator
    let result := (value <<< 1) % 256
    let s2 := { s1 with registers :=
      (s1.registers.status_write flags.CARRY (value &&& 0x80 != 0)).status_set_nz result }
    (.ok, match address with
      | some a => s2.write a result
      | none => { s2 with registers := { s2.registers with accumulator := result } })
  | .LSR =>
    let (address, s1) := s.fetch_operand_address opcode
    let value := match address with
      | some a => s1.read a
      | none => s1.registers.accumulator
    let result := value >>> 1
    let s2 := { s1 with registers :=
      (s1.registers.status_write flags.CARRY (value &&& 0x01 != 0)).status_set_nz result }
    (.ok, match address with
      | some a => s2.write a result
      | none => { s2 with registers := { s2.registers with accumulator := result } })
  | .ROL =>
    let (address, s1) := s.fetch_operand_address opcode
    let value := match address with
      | some a => s1.read a
      | none => s1.registers.accumulator
    let carry : Nat := if s1.registers.status_read flags.CARRY then 1 else 0
    let result := ((value <<< 1) ||| carry) % 256
    let s2 := { s1 with registers :=
      (s1.registers.status_write flags.CARRY (value &&& 0x80 != 0)).status_set_nz result }
    (.ok, match address with
      | some a => s2.write a result
      | none => { s2 with registers := { s2.registers with accumulator := result } })
  | .ROR =>
    let (address, s1) := s.fetch_operand_address opcode
    let value := match address with
      | some a => s1.read a
      | none => s1.registers.accumulator
    let carry : Nat := if s1.registers.status_read flags.CARRY then 1 else 0
    let result := (value >>> 1) ||| (carry <<< 7)
    let s2 := { s1 with registers :=
      (s1.registers.status_write flags.CARRY (value &&& 0x01 != 0)).status_set_nz result }
    (.ok, match address with
      | some a => s2.write a result
      | none => { s2 with registers := { s2.registers with accumulator := result } })
  | .AND =>
    let (value, s1) := s.fetch_operand_value opcode
    let acc := s1.registers.accumulator &&& value
    (.ok, { s1 with registers :=
      ({ s1.registers with accumulator := acc }).status_set_nz acc })
  | .BIT =>
    let (value, s1) : Nat × System :=
      match opcode with
      | 0x24 => s.fetch_zero_page
      | _ => s.fetch_absolute
    (.ok, { s1 with registers :=
      (((s1.registers.status_write flags.NEGATIVE (value &&& 0x80 != 0)).status_write
          flags.OVERFLOW (value &&& 0x40 != 0)).status_write
        flags.ZERO (value &&& s1.registers.accumulator == 0)) })
  | .EOR =>
    let (value, s1) := s.fetch_operand_value opcode
    let acc := s1.registers.accumulator ^^^ value
    (.ok, { s1 with registers :=
      ({ s1.registers with accumulator := acc }).status_set_nz acc })
  | .ORA =>
    let (value, s1) := s.fetch_operand_value opcode
    let acc := s1.registers.accumulator ||| value
    (.ok, { s1 with registers :=
      ({ s1.registers with accumulator := acc }).status_set_nz acc })
  | .ADC =>
    let (value, s1) := s.fetch_operand_value opcode
    (.ok, { s1 with registers := s1.registers.alu_add value })
  | .CMP =>
    let (value, s1) := s.fetch_operand_value opcode
    (.ok, { s1 with registers :=
      s1.registers.alu_compare s1.registers.accumulator value })
  | .CPX =>
    let (value, s1) := s.fetch_operand_value opcode
    (.ok, { s1 with registers :=
      s1.registers.alu_compare s1.registers.x_index value })
  | .CPY =>
    let (value, s1) := s.fetch_operand_value opcode
    (.ok, { s1 with registers :=
      s1.registers.alu_compare s1.registers.y_index value })
  | .SBC =>
    let (value, s1) := s.fetch_operand_value opcode
    (.ok, { s1 with registers := s1.registers.alu_subtract value })
  | .DEC =>
    let (address, s1) := s.fetch_operand_address opcode
    match address with
    | some a =>
      let value := s1.read a
      let result := (value + 255) % 256
      let s2 := { s1 with registers := s1.registers.status_set_nz result }
      (.ok, s2.write a result)
    | none => (.err, s1)
  | .DEX =>
    let x := (s.registers.x_index + 255) % 256
    (.ok, { s with registers :=
      ({ s.registers with x_index := x }).status_set_nz x })
  | .DEY =>
    let y := (s.registers.y_index + 255) % 256
    (.ok, { s with registers :=
      ({ s.registers with y_index := y }).status_set_nz y })
  | .INC =>
    let (address, s1) := s.fetch_operand_address opcode
    match address with
    | some a =>
      let value := s1.read a
      let result := (value + 1) % 256
      let s2 := { s1 with registers := s1.registers.status_set_nz result }
      (.ok, s2.write a result)
    | none => (.err, s1)
  | .INX =>
    let x := (s.registers.x_index + 1) % 256
    (.ok, { s with registers :=
      ({ s.registers with x_index := x }).status_set_nz x })
  | .INY =>
    let y := (s.registers.y_index + 1) % 256
    (.ok, { s with registers :=
      ({ s.registers with y_index := y }).status_set_nz y })
  | .BRK =>
    (.err, s)
  | .JMP =>
    let (address, s1) : Nat × System :=
      match opcode with
      | 0x4C => s.fetch_word
      | _ =>
        let (indirect, t1) := s.fetch_word
        (t1.read_word indirect, t1)
    (.ok, { s1 with registers := s1.registers.pc_load address })
  | .JSR =>
    let (address, s1) := s.fetch_word
    let return_to := (s1.registers.pc_address + 1) % 65536
    let s2 := s1.push ((return_to &&& (0xFF >>> 8)) % 256)
    let s3 := s2.push ((return_to &&& 0xFF) % 256)
    (.ok, { s3 with registers := s3.registers.pc_load address })
  | .RTI =>
    (.err, s)
  | .RTS =>
    let (pc_low, s1) := s.pop
    let (pc_high, s2) := s1.pop
    (.ok, { s2 with registers :=
      s2.registers.pc_load (((pc_high ||| (pc_low <<< 8)) + 1) % 65536) })
  | .BRA =>
    let (off, s1) := s.fetch
    let condition := branchCondition opcode s1.registers
    (.ok, if condition
      then { s1 with registers := s1.registers.pc_offset (toI8 off) }
      else s1)
  | .CLF =>
    let flag := match opcode with
      | 0x18 => flags.CARRY
      | 0xD8 => flags.DECIMAL
      | 0x58 => flags.INTERRUPT
      | _ => flags.OVERFLOW
    (.ok, { s with registers := s.registers.status_clear flag })
  | .SEF =>
    let flag := match opcode with
      | 0x38 => flags.CARRY
      | 0xF8 => flags.DECIMAL
      | _ => flags.INTERRUPT
    (.ok, { s with registers := s.registers.status_set flag })
  | .NOP =>
    (.ok, s)
  | .UNIMP =>
    (.err, s)

/-- `BranchMemory` from `memory/branch.rs`: a list of (start, store)
entries in declaration order.  A backing store is modelled by its
byte-array function, with its `write` as pointwise update. -/
structure BranchMemory where
  mapping : List (Nat × (Nat → Nat))

/-- `BranchMemory::new` from `memory/branch.rs`. -/
def BranchMemory.new : BranchMemory :=
  ⟨[]⟩

/-- `BranchMemory::map` from `memory/branch.rs`: append an entry. -/
def BranchMemory.map (m : BranchMemory) (address : Nat) (store : Nat → Nat) : BranchMemory :=
  ⟨m.mapping ++ [(address, store)]⟩

/-- `BranchMemory::read` from `memory/branch.rs`: scan the entries in
declaration order keeping the latest whose start is at most the address
(the loop's `memory`/`offset` variables), then delegate at the offset, or
return 0 when none matched. -/
def BranchMemory.read (m : BranchMemory) (address : Nat) : Nat :=
  match m.mapping.foldl
      (fun acc entry => if entry.1 ≤ address then some entry else acc) none with
  | some (start, store) => store (address - start)
  | none => 0

/-- `BranchMemory::write` from `memory/branch.rs`: the same scan as
`read` (tracking the entry's position, since the loop holds a mutable
borrow of the matched element), then delegate the write at the offset, or
drop it when none matched. -/
def BranchMemory.write (m : BranchMemory) (address : Nat) (value : Nat) : BranchMemory :=
  match m.mapping.enum.foldl
      (fun acc entry => if entry.2.1 ≤ address then some entry else acc) none with
  | some (i, start, store) =>
    ⟨m.mapping.set i (start, fun off => if off = address - start then value else store off)⟩
  | none => m

/-- Modelled from the spec's words, for comparison with the code: resolve
an address by selecting the entry with the greatest start at most the
address, the last such entry in declaration order winning ties. -/
def specSelect (mapping : List (Nat × (Nat → Nat))) (address : Nat) :
    Option (Nat × (Nat → Nat)) :=
  mapping.foldl
    (fun acc entry =>
      if entry.1 ≤ address then
        match acc with
        | none => some entry
        | some prev => if prev.1 ≤ entry.1 then some entry else some prev
      else acc)
    none

/-- Modelled from the spec's words, for comparison with the code: read
through the greatest-start selection, 0 when unmapped. -/
def specRead (mapping : List (Nat × (Nat → Nat))) (address : Nat) : Nat :=
  match specSelect mapping address with
  | some (start, store) => store (address - start)
  | none => 0

/-- `NullMemory::read` from `memory/null.rs`: always 0. -/
def NullMemory.read (_address : Nat) : Nat :=
  0

/-- A concrete machine state: the two operand bytes of a JSR whose opcode
byte sits at `0x1000` (so the program counter, having consumed the
opcode, is at `0x1001`) name the target `0x2000`; all other memory is
zero, the stack pointer is at the top of the stack page. -/
def jsrDemo : System :=
  { registers :=
      { accumulator := 0, x_index := 0, y_index := 0, stack_pointer := 0xFF,
        status_register := 0, pc := 0x1001 },
    memory := fun a => if a = 0x1001 then 0x00 else if a = 0x1002 then 0x20 else 0 }

/-- A concrete machine state for zero-page indexed addressing: the operand
byte at the program counter is `0xFF`, the X index is `0x02`, zero-page
address `0x01` holds `0xAB` and address `0x101` holds `0xCD`. -/
def zpDemo : System :=
  { registers :=
      { accumulator := 0, x_index := 0x02, y_index := 0x02, stack_pointer := 0xFF,
        status_register := 0, pc := 0x0200 },
    memory := fun a =>
      if a = 0x0200 then 0xFF else if a = 0x0001 then 0xAB else
      if a = 0x0101 then 0xCD else 0 }

/-- C1: JSR at `0x1000` followed by RTS does not resume at `0x1003`: the
code resumes at `0x0401`.  JSR pushes `(pc + 1) & (0xFF >> 8)`, which is
always zero (precedence: the intended high byte `(pc + 1) >> 8` is
instead masked to nothing), then `(pc + 1) & 0xFF`; RTS pops the two
bytes but installs the first-popped byte as the HIGH byte
(`pc_high | pc_low << 8` with `pc_low` popped first) and adds one, giving
`((pc + 1) & 0xFF) << 8 | 0 + 1 = 0x0401` here rather than the return
address `0x1003` the claim requires. -/
theorem jsr_rts_resumes_at_0401 :
    ((jsrDemo.execute 0x20).2.execute 0x60).2.registers.pc = 0x0401 ∧
    ((jsrDemo.execute 0x20).2.execute 0x60).2.registers.pc ≠ 0x1003 ∧
    (jsrDemo.execute 0x20).2.registers.pc = 0x2000 ∧
    (jsrDemo.execute 0x20).2.memory 0x01FF = 0x00 ∧
    (jsrDemo.execute 0x20).2.memory 0x01FE = 0x04 := by
  refine ⟨rfl, by decide, rfl, rfl, rfl⟩

/-- C2: executing opcode `0x00` (BRK) performs no interrupt-entry sequence
at all: on every state the dispatcher returns the fault signal and leaves
the state untouched, contradicting the specified
advance-then-interrupt-entry behaviour. -/
theorem brk_faults_without_interrupt_sequence (s : System) :
    s.execute 0x00 = (.err, s) :=
  rfl

/-- C3: executing opcode `0x40` (RTI) performs no state restoration: on
every state the dispatcher returns the fault signal and leaves the state
untouched, contradicting the specified pull-status-then-return-address
behaviour. -/
theorem rti_faults_without_restoring_state (s : System) :
    s.execute 0x40 = (.err, s) :=
  rfl

/-- C10: executing opcode `0x68` (PLA) loads the accumulator with the
byte popped from the stack (the byte of page `0x0100` at the incremented
stack pointer) and leaves the entire status byte unchanged — no NZ
update occurs, and memory, the program counter and the other registers
are untouched. -/
theorem pla_loads_accumulator_preserves_status (s : System) :
    s.execute 0x68 =
      (.ok, { s with registers := { s.registers with
        accumulator := s.read (0x0100 + (s.registers.stack_pointer + 1) % 256),
        stack_pointer := (s.registers.stack_pointer + 1) % 256 } }) ∧
    (s.execute 0x68).2.registers.status_register = s.registers.status_register :=
  ⟨rfl, rfl⟩

/-- C8: zero-page indexed addressing adds the index register to the
fetched base byte and wraps modulo 256 before forming the address: the
value-producing fetchers read at `(base + index) % 256`, the STA
zero-page,X store writes the accumulator there, and in particular base
`0xFF` with index `0x02` resolves to zero-page address `0x01` (yielding
the byte stored at `0x01`, not the byte at `0x101`). -/
theorem zero_page_indexed_wraps (s : System) :
    (s.fetch_zero_page_x).1 = s.read ((s.read s.registers.pc + s.registers.x_index) % 256) ∧
    (s.fetch_zero_page_y).1 = s.read ((s.read s.registers.pc + s.registers.y_index) % 256) ∧
    s.execute 0x95 =
      (.ok, System.write { s with registers := s.registers.pc_increment }
        ((s.read s.registers.pc + s.registers.x_index) % 256) s.registers.accumulator) ∧
    (zpDemo.fetch_zero_page_x).1 = 0xAB ∧
    (zpDemo.fetch_zero_page_x).1 ≠ 0xCD :=
  ⟨rfl, rfl, rfl, rfl, by decide⟩

/-- The opcode bytes covered by a recognized arm of the `execute.rs`
match, listed in source order. -/
def assignedOpcodes : List Nat :=
  [0xA1, 0xA5, 0xA9, 0xAD, 0xB1, 0xB5, 0xB9, 0xBD,
   0xA2, 0xA6, 0xAE, 0xB6, 0xBE,
   0xA0, 0xA4, 0xAC, 0xB4, 0xBC,
   0x81, 0x85, 0x8D, 0x91, 0x95, 0x99, 0x9D,
   0x86, 0x8E, 0x96,
   0x84, 0x8C, 0x94,
   0xAA, 0xA8, 0xBA, 0x8A, 0x9A, 0x98,
   0x48, 0x08, 0x68, 0x28,
   0x06, 0x0A, 0x0E, 0x16, 0x1E,
   0x46, 0x4A, 0x4E, 0x56, 0x5E,
   0x26, 0x2A, 0x2E, 0x36, 0x3E,
   0x66, 0x6A, 0x6E, 0x76, 0x7E,
   0x21, 0x25, 0x29, 0x2D, 0x31, 0x35, 0x39, 0x3D,
   0x24, 0x2C,
   0x41, 0x45, 0x49, 0x4D, 0x51, 0x55, 0x59, 0x5D,
   0x01, 0x05, 0x09, 0x0D, 0x11, 0x15, 0x19, 0x1D,
   0x61, 0x65, 0x69, 0x6D, 0x71, 0x75, 0x79, 0x7D,
   0xC1, 0xC5, 0xC9, 0xCD, 0xD1, 0xD5, 0xD9, 0xDD,
   0xE0, 0xE4, 0xEC,
   0xC0, 0xC4, 0xCC,
   0xE1, 0xE5, 0xE9, 0xED, 0xF1, 0xF5, 0xF9, 0xFD,
   0xC6, 0xCE, 0xD6, 0xDE,
   0xCA, 0x88,
   0xE6, 0xEE, 0xF6, 0xFE,
   0xE8, 0xC8,
   0x00, 0x4C, 0x6C, 0x20, 0x40, 0x60,
   0x90, 0xB0, 0xF0, 0x30, 0xD0, 0x10, 0x50, 0x70,
   0x18, 0xD8, 0x58, 0xB8,
   0x38, 0xF8, 0x78,
   0xEA]

set_option maxRecDepth 4096 in
/-- Every opcode byte outside `assignedOpcodes` decodes to the default
(unimplemented) arm. -/
lemma decode_of_unassigned : ∀ c < 256, c ∉ assignedOpcodes → decode c = Instr.UNIMP := by
  decide

/-- C5: for every unassigned opcode byte the dispatcher returns the fault
signal (distinct from the success signal of every recognized opcode) and
performs no state mutation: registers, status flags and memory are
exactly as before the dispatch. -/
theorem unassigned_opcode_faults_state_unchanged (c : Nat) (hlt : c < 256)
    (hc : c ∉ assignedOpcodes) (s : System) :
    s.execute c = (.err, s) := by
  have hd : decode c = Instr.UNIMP := decode_of_unassigned c hlt hc
  unfold System.execute
  rw [hd]

/-- Witness for C5 at the unassigned byte `0xFF`: the dispatch faults and
the concrete state is returned unchanged. -/
theorem unassigned_opcode_faults_witness :
    jsrDemo.execute 0xFF = (.err, jsrDemo) :=
  unassigned_opcode_faults_state_unchanged 0xFF (by decide) (by decide) jsrDemo

/-- C7: every branch opcode fetches its one-byte displacement and
advances the program counter past it unconditionally; only when the
opcode's flag condition holds is the displacement (sign-extended) then
added to the already-advanced counter with wraparound.  Registers other
than the program counter, the status byte and memory are untouched either
way. -/
theorem branch_advances_pc_unconditionally (c : Nat)
    (hc : c ∈ [0x90, 0xB0, 0xF0, 0x30, 0xD0, 0x10, 0x50, 0x70]) (s : System) :
    s.execute c =
      (.ok,
        if branchCondition c s.registers.pc_increment
        then { s with registers :=
          s.registers.pc_increment.pc_offset (toI8 (s.read s.registers.pc)) }
        else { s with registers := s.registers.pc_increment }) := by
  fin_cases hc <;> rfl

/-- Witness for C7 at opcode `0xB0` (BCS) on a concrete state whose Carry
flag is clear: the branch is not taken, yet the program counter has
advanced past the displacement byte, from `0x1001` to `0x1002`. -/
theorem branch_advances_pc_witness :
    (jsrDemo.execute 0xB0).2.registers.pc = 0x1002 ∧ branchCondition 0xB0 jsrDemo.registers.pc_increment = false := by
  have h := branch_advances_pc_unconditionally 0xB0 (by decide) jsrDemo
  rw [h]
  exact ⟨by decide, by decide⟩

/-- Bitwise conjunction distributes over disjunction on `Nat`. -/
lemma nat_and_or_right (a b c : Nat) : (a ||| b) &&& c = (a &&& c) ||| (b &&& c) := by
  apply Nat.eq_of_testBit_eq
  intro i
  simp [Nat.testBit_or, Nat.testBit_and, Bool.and_or_distrib_right]

/-- A disjunction with a nonzero mask is nonzero. -/
lemma nat_or_ne_zero (x f : Nat) (hf : f ≠ 0) : (x ||| f) ≠ 0 := by
  intro h
  apply hf
  have hb := congrArg (fun n => n.testBit) h
  exact Nat.eq_of_testBit_eq (fun i => by
    have := congrFun hb i
    simp [Nat.testBit_or] at this
    simp [this.2])

/-- Writing one status flag leaves the readback of a disjoint flag
unchanged. -/
lemma status_read_write_of_ne (r : Registers) (f g : Nat) (b : Bool)
    (h1 : g &&& f = 0) (h2 : (0xFF ^^^ g) &&& f = f) :
    (r.status_write g b).status_read f = r.status_read f := by
  cases b
  · show ((r.status_register &&& (0xFF ^^^ g)) &&& f != 0) = (r.status_register &&& f != 0)
    rw [Nat.and_assoc, h2]
  · show ((r.status_register ||| g) &&& f != 0) = (r.status_register &&& f != 0)
    rw [nat_and_or_right, h1, Nat.or_zero]

/-- Reading back a just-written status flag yields the written value. -/
lemma status_read_write_self (r : Registers) (f : Nat) (b : Bool)
    (hf : f ≠ 0) (hc : (0xFF ^^^ f) &&& f = 0) :
    (r.status_write f b).status_read f = b := by
  cases b
  · show ((r.status_register &&& (0xFF ^^^ f)) &&& f != 0) = false
    rw [Nat.and_assoc, hc, Nat.and_zero]
    rfl
  · show ((r.status_register ||| f) &&& f != 0) = true
    rw [nat_and_or_right, Nat.and_self]
    exact bne_iff_ne.mpr (nat_or_ne_zero _ _ hf)

/-- Reading back the byte just written through the bus. -/
lemma read_write_back (s : System) (a v : Nat) : (s.write a v).read a = v % 256 := by
  show (if a % 65536 = a % 65536 then v % 256 else s.memory (a % 65536)) % 256 = v % 256
  rw [if_pos rfl]
  omega

/-- Register file after INX, by computation. -/
lemma execute_inx_registers (s : System) :
    (s.execute 0xE8).2.registers =
      ({ s.registers with x_index := (s.registers.x_index + 1) % 256 }).status_set_nz
        ((s.registers.x_index + 1) % 256) := rfl

/-- Register file after INY, by computation. -/
lemma execute_iny_registers (s : System) :
    (s.execute 0xC8).2.registers =
      ({ s.registers with y_index := (s.registers.y_index + 1) % 256 }).status_set_nz
        ((s.registers.y_index + 1) % 256) := rfl

/-- Register file after DEX, by computation. -/
lemma execute_dex_registers (s : System) :
    (s.execute 0xCA).2.registers =
      ({ s.registers with x_index := (s.registers.x_index + 255) % 256 }).status_set_nz
        ((s.registers.x_index + 255) % 256) := rfl

/-- Register file after DEY, by computation. -/
lemma execute_dey_registers (s : System) :
    (s.execute 0x88).2.registers =
      ({ s.registers with y_index := (s.registers.y_index + 255) % 256 }).status_set_nz
        ((s.registers.y_index + 255) % 256) := rfl

/-- State after DEC zero page, by computation. -/
lemma execute_dec_zp_state (s : System) :
    (s.execute 0xC6).2 =
      ({ s with registers := (s.registers.pc_increment.status_set_nz
          ((s.read (s.read s.registers.pc) + 255) % 256)) }).write
        (s.read s.registers.pc)
        ((s.read (s.read s.registers.pc) + 255) % 256) := rfl

/-- State after DEC zero page X, by computation. -/
lemma execute_dec_zpx_state (s : System) :
    (s.execute 0xD6).2 =
      ({ s with registers := (s.registers.pc_increment.status_set_nz
          ((s.read ((s.read s.registers.pc + s.registers.x_index) % 256) + 255) % 256)) }).write
        ((s.read s.registers.pc + s.registers.x_index) % 256)
        ((s.read ((s.read s.registers.pc + s.registers.x_index) % 256) + 255) % 256) := rfl

/-- State after DEC absolute, by computation. -/
lemma execute_dec_abs_state (s : System) :
    (s.execute 0xCE).2 =
      ({ s with registers := (s.registers.pc_increment.pc_increment.status_set_nz
          ((s.read ((s.read ((s.registers.pc + 1) % 65536) <<< 8) ||| s.read s.registers.pc) + 255) % 256)) }).write
        ((s.read ((s.registers.pc + 1) % 65536) <<< 8) ||| s.read s.registers.pc)
        ((s.read ((s.read ((s.registers.pc + 1) % 65536) <<< 8) ||| s.read s.registers.pc) + 255) % 256) := rfl

/-- State after DEC absolute X, by computation. -/
lemma execute_dec_absx_state (s : System) :
    (s.execute 0xDE).2 =
      ({ s with registers := (s.registers.pc_increment.pc_increment.status_set_nz
          ((s.read ((((s.read ((s.registers.pc + 1) % 65536) <<< 8) ||| s.read s.registers.pc) + s.registers.x_index) % 65536) + 255) % 256)) }).write
        ((((s.read ((s.registers.pc + 1) % 65536) <<< 8) ||| s.read s.registers.pc) + s.registers.x_index) % 65536)
        ((s.read ((((s.read ((s.registers.pc + 1) % 65536) <<< 8) ||| s.read s.registers.pc) + s.registers.x_index) % 65536) + 255) % 256) := rfl

/-- State after INC zero page, by computation. -/
lemma execute_inc_zp_state (s : System) :
    (s.execute 0xE6).2 =
      ({ s with registers := (s.registers.pc_increment.status_set_nz
          ((s.read (s.read s.registers.pc) + 1) % 256)) }).write
        (s.read s.registers.pc)
        ((s.read (s.read s.registers.pc) + 1) % 256) := rfl

/-- State after INC zero page X, by computation. -/
lemma execute_inc_zpx_state (s : System) :
    (s.execute 0xF6).2 =
      ({ s with registers := (s.registers.pc_increment.status_set_nz
          ((s.read ((s.read s.registers.pc + s.registers.x_index) % 256) + 1) % 256)) }).write
        ((s.read s.registers.pc + s.registers.x_index) % 256)
        ((s.read ((s.read s.registers.pc + s.registers.x_index) % 256) + 1) % 256) := rfl

/-- State after INC absolute, by computation. -/
lemma execute_inc_abs_state (s : System) :
    (s.execute 0xEE).2 =
      ({ s with registers := (s.registers.pc_increment.pc_increment.status_set_nz
          ((s.read ((s.read ((s.registers.pc + 1) % 65536) <<< 8) ||| s.read s.registers.pc) + 1) % 256)) }).write
        ((s.read ((s.registers.pc + 1) % 65536) <<< 8) ||| s.read s.registers.pc)
        ((s.read ((s.read ((s.registers.pc + 1) % 65536) <<< 8) ||| s.read s.registers.pc) + 1) % 256) := rfl

/-- State after INC absolute X, by computation. -/
lemma execute_inc_absx_state (s : System) :
    (s.execute 0xFE).2 =
      ({ s with registers := (s.registers.pc_increment.pc_increment.status_set_nz
          ((s.read ((((s.read ((s.registers.pc + 1) % 65536) <<< 8) ||| s.read s.registers.pc) + s.registers.x_index) % 65536) + 1) % 256)) }).write
        ((((s.read ((s.registers.pc + 1) % 65536) <<< 8) ||| s.read s.registers.pc) + s.registers.x_index) % 65536)
        ((s.read ((((s.read ((s.registers.pc + 1) % 65536) <<< 8) ||| s.read s.registers.pc) + s.registers.x_index) % 65536) + 1) % 256) := rfl

/-- Writing a status flag leaves the X index unchanged. -/
lemma status_write_x_index (r : Registers) (f : Nat) (b : Bool) :
    (r.status_write f b).x_index = r.x_index := by
  cases b <;> rfl

/-- Writing a status flag leaves the Y index unchanged. -/
lemma status_write_y_index (r : Registers) (f : Nat) (b : Bool) :
    (r.status_write f b).y_index = r.y_index := by
  cases b <;> rfl

/-- Writing a status flag leaves the accumulator unchanged. -/
lemma status_write_accumulator (r : Registers) (f : Nat) (b : Bool) :
    (r.status_write f b).accumulator = r.accumulator := by
  cases b <;> rfl

/-- Setting NZ leaves the X index unchanged. -/
lemma status_set_nz_x_index (r : Registers) (v : Nat) :
    (r.status_set_nz v).x_index = r.x_index := by
  unfold Registers.status_set_nz
  rw [status_write_x_index, status_write_x_index]

/-- Setting NZ leaves the Y index unchanged. -/
lemma status_set_nz_y_index (r : Registers) (v : Nat) :
    (r.status_set_nz v).y_index = r.y_index := by
  unfold Registers.status_set_nz
  rw [status_write_y_index, status_write_y_index]

/-- Reading back the Zero flag after setting NZ from a value. -/
lemma status_set_nz_read_zero (r : Registers) (v : Nat) :
    (r.status_set_nz v).status_read flags.ZERO = (v == 0) := by
  unfold Registers.status_set_nz
  rw [status_read_write_of_ne _ flags.ZERO flags.NEGATIVE _ (by decide) (by decide)]
  exact status_read_write_self _ flags.ZERO _ (by decide) (by decide)

/-- Reading back the Negative flag after setting NZ from a value. -/
lemma status_set_nz_read_negative (r : Registers) (v : Nat) :
    (r.status_set_nz v).status_read flags.NEGATIVE = (v &&& 0x80 != 0) := by
  unfold Registers.status_set_nz
  exact status_read_write_self _ flags.NEGATIVE _ (by decide) (by decide)

/-- C4: INX, INY, DEX and DEY perform an 8-bit wrapping add/subtract of 1
modulo 256 on their register, set the Zero and Negative flags from the
wrapped result, and complete with the success signal; the memory variants
INC and DEC (all four addressing modes each) wrap the read byte modulo
256 before writing it back.  In particular INX with X = `0xFF` yields
X = `0x00` and DEX with X = `0x00` yields X = `0xFF`. -/
theorem increment_decrement_wraps_mod_256 (s : System) :
    ((s.execute 0xE8).1 = .ok ∧
     (s.execute 0xE8).2.registers.x_index = (s.registers.x_index + 1) % 256 ∧
     (s.execute 0xE8).2.registers.status_read flags.ZERO
       = ((s.registers.x_index + 1) % 256 == 0) ∧
     (s.execute 0xE8).2.registers.status_read flags.NEGATIVE
       = ((s.registers.x_index + 1) % 256 &&& 0x80 != 0)) ∧
    ((s.execute 0xC8).1 = .ok ∧
     (s.execute 0xC8).2.registers.y_index = (s.registers.y_index + 1) % 256 ∧
     (s.execute 0xC8).2.registers.status_read flags.ZERO
       = ((s.registers.y_index + 1) % 256 == 0) ∧
     (s.execute 0xC8).2.registers.status_read flags.NEGATIVE
       = ((s.registers.y_index + 1) % 256 &&& 0x80 != 0)) ∧
    ((s.execute 0xCA).1 = .ok ∧
     (s.execute 0xCA).2.registers.x_index = (s.registers.x_index + 255) % 256 ∧
     (s.execute 0xCA).2.registers.status_read flags.ZERO
       = ((s.registers.x_index + 255) % 256 == 0) ∧
     (s.execute 0xCA).2.registers.status_read flags.NEGATIVE
       = ((s.registers.x_index + 255) % 256 &&& 0x80 != 0)) ∧
    ((s.execute 0x88).1 = .ok ∧
     (s.execute 0x88).2.registers.y_index = (s.registers.y_index + 255) % 256 ∧
     (s.execute 0x88).2.registers.status_read flags.ZERO
       = ((s.registers.y_index + 255) % 256 == 0) ∧
     (s.execute 0x88).2.registers.status_read flags.NEGATIVE
       = ((s.registers.y_index + 255) % 256 &&& 0x80 != 0)) ∧
    ((s.execute 0xC6).1 = .ok ∧
     (s.execute 0xC6).2.read (s.read s.registers.pc)
       = (s.read (s.read s.registers.pc) + 255) % 256) ∧
    ((s.execute 0xD6).1 = .ok ∧
     (s.execute 0xD6).2.read ((s.read s.registers.pc + s.registers.x_index) % 256)
       = (s.read ((s.read s.registers.pc + s.registers.x_index) % 256) + 255) % 256) ∧
    ((s.execute 0xCE).1 = .ok ∧
     (s.execute 0xCE).2.read ((s.read ((s.registers.pc + 1) % 65536) <<< 8) ||| s.read s.registers.pc)
       = (s.read ((s.read ((s.registers.pc + 1) % 65536) <<< 8) ||| s.read s.registers.pc) + 255) % 256) ∧
    ((s.execute 0xDE).1 = .ok ∧
     (s.execute 0xDE).2.read ((((s.read ((s.registers.pc + 1) % 65536) <<< 8) ||| s.read s.registers.pc) + s.registers.x_index) % 65536)
       = (s.read ((((s.read ((s.registers.pc + 1) % 65536) <<< 8) ||| s.read s.registers.pc) + s.registers.x_index) % 65536) + 255) % 256) ∧
    ((s.execute 0xE6).1 = .ok ∧
     (s.execute 0xE6).2.read (s.read s.registers.pc)
       = (s.read (s.read s.registers.pc) + 1) % 256) ∧
    ((s.execute 0xF6).1 = .ok ∧
     (s.execute 0xF6).2.read ((s.read s.registers.pc + s.registers.x_index) % 256)
       = (s.read ((s.read s.registers.pc + s.registers.x_index) % 256) + 1) % 256) ∧
    ((s.execute 0xEE).1 = .ok ∧
     (s.execute 0xEE).2.read ((s.read ((s.registers.pc + 1) % 65536) <<< 8) ||| s.read s.registers.pc)
       = (s.read ((s.read ((s.registers.pc + 1) % 65536) <<< 8) ||| s.read s.registers.pc) + 1) % 256) ∧
    ((s.execute 0xFE).1 = .ok ∧
     (s.execute 0xFE).2.read ((((s.read ((s.registers.pc + 1) % 65536) <<< 8) ||| s.read s.registers.pc) + s.registers.x_index) % 65536)
       = (s.read ((((s.read ((s.registers.pc + 1) % 65536) <<< 8) ||| s.read s.registers.pc) + s.registers.x_index) % 65536) + 1) % 256) ∧
    ({ jsrDemo with registers := { jsrDemo.registers with x_index := 0xFF } }.execute 0xE8).2.registers.x_index = 0x00 ∧
    (jsrDemo.execute 0xCA).2.registers.x_index = 0xFF := by
  refine ⟨⟨rfl, ?_, ?_, ?_⟩, ⟨rfl, ?_, ?_, ?_⟩, ⟨rfl, ?_, ?_, ?_⟩, ⟨rfl, ?_, ?_, ?_⟩,
    ⟨rfl, ?_⟩, ⟨rfl, ?_⟩, ⟨rfl, ?_⟩, ⟨rfl, ?_⟩, ⟨rfl, ?_⟩, ⟨rfl, ?_⟩, ⟨rfl, ?_⟩, ⟨rfl, ?_⟩,
    by decide, by decide⟩
  · rw [execute_inx_registers, status_set_nz_x_index]
  · rw [execute_inx_registers, status_set_nz_read_zero]
  · rw [execute_inx_registers, status_set_nz_read_negative]
  · rw [execute_iny_registers, status_set_nz_y_index]
  · rw [execute_iny_registers, status_set_nz_read_zero]
  · rw [execute_iny_registers, status_set_nz_read_negative]
  · rw [execute_dex_registers, status_set_nz_x_index]
  · rw [execute_dex_registers, status_set_nz_read_zero]
  · rw [execute_dex_registers, status_set_nz_read_negative]
  · rw [execute_dey_registers, status_set_nz_y_index]
  · rw [execute_dey_registers, status_set_nz_read_zero]
  · rw [execute_dey_registers, status_set_nz_read_negative]
  · rw [execute_dec_zp_state, read_write_back]
    omega
  · rw [execute_dec_zpx_state, read_write_back]
    omega
  · rw [execute_dec_abs_state, read_write_back]
    omega
  · rw [execute_dec_absx_state, read_write_back]
    omega
  · rw [execute_inc_zp_state, read_write_back]
    omega
  · rw [execute_inc_zpx_state, read_write_back]
    omega
  · rw [execute_inc_abs_state, read_write_back]
    omega
  · rw [execute_inc_absx_state, read_write_back]
    omega

/-- Register file after BIT zero page, by computation. -/
lemma execute_bit_zp_registers (s : System) :
    (s.execute 0x24).2.registers =
      ((s.registers.pc_increment.status_write flags.NEGATIVE
          (s.read (s.read s.registers.pc) &&& 0x80 != 0)).status_write
        flags.OVERFLOW (s.read (s.read s.registers.pc) &&& 0x40 != 0)).status_write
        flags.ZERO (s.read (s.read s.registers.pc) &&& s.registers.accumulator == 0) := rfl

/-- Register file after BIT absolute, by computation. -/
lemma execute_bit_abs_registers (s : System) :
    (s.execute 0x2C).2.registers =
      ((s.registers.pc_increment.pc_increment.status_write flags.NEGATIVE
          (s.read ((s.read ((s.registers.pc + 1) % 65536) <<< 8) ||| s.read s.registers.pc) &&& 0x80 != 0)).status_write
        flags.OVERFLOW (s.read ((s.read ((s.registers.pc + 1) % 65536) <<< 8) ||| s.read s.registers.pc) &&& 0x40 != 0)).status_write
        flags.ZERO (s.read ((s.read ((s.registers.pc + 1) % 65536) <<< 8) ||| s.read s.registers.pc) &&& s.registers.accumulator == 0) := rfl

/-- C9: BIT (opcodes `0x24` and `0x2C`) sets Negative to bit 7 of the
operand byte, Overflow to bit 6 of the operand byte, Zero to whether the
conjunction of the operand with the accumulator is zero, does not mutate
the accumulator, and completes with the success signal. -/
theorem bit_sets_nvz_preserves_accumulator (s : System) :
    ((s.execute 0x24).1 = .ok ∧
     (s.execute 0x24).2.registers.accumulator = s.registers.accumulator ∧
     (s.execute 0x24).2.registers.status_read flags.NEGATIVE
       = (s.read (s.read s.registers.pc) &&& 0x80 != 0) ∧
     (s.execute 0x24).2.registers.status_read flags.OVERFLOW
       = (s.read (s.read s.registers.pc) &&& 0x40 != 0) ∧
     (s.execute 0x24).2.registers.status_read flags.ZERO
       = (s.read (s.read s.registers.pc) &&& s.registers.accumulator == 0)) ∧
    ((s.execute 0x2C).1 = .ok ∧
     (s.execute 0x2C).2.registers.accumulator = s.registers.accumulator ∧
     (s.execute 0x2C).2.registers.status_read flags.NEGATIVE
       = (s.read ((s.read ((s.registers.pc + 1) % 65536) <<< 8) ||| s.read s.registers.pc) &&& 0x80 != 0) ∧
     (s.execute 0x2C).2.registers.status_read flags.OVERFLOW
       = (s.read ((s.read ((s.registers.pc + 1) % 65536) <<< 8) ||| s.read s.registers.pc) &&& 0x40 != 0) ∧
     (s.execute 0x2C).2.registers.status_read flags.ZERO
       = (s.read ((s.read ((s.registers.pc + 1) % 65536) <<< 8) ||| s.read s.registers.pc) &&& s.registers.accumulator == 0)) := by
  refine ⟨⟨rfl, ?_, ?_, ?_, ?_⟩, ⟨rfl, ?_, ?_, ?_, ?_⟩⟩
  · rw [execute_bit_zp_registers, status_write_accumulator, status_write_accumulator,
      status_write_accumulator]
    rfl
  · rw [execute_bit_zp_registers,
      status_read_write_of_ne _ flags.NEGATIVE flags.ZERO _ (by decide) (by decide),
      status_read_write_of_ne _ flags.NEGATIVE flags.OVERFLOW _ (by decide) (by decide)]
    exact status_read_write_self _ flags.NEGATIVE _ (by decide) (by decide)
  · rw [execute_bit_zp_registers,
      status_read_write_of_ne _ flags.OVERFLOW flags.ZERO _ (by decide) (by decide)]
    exact status_read_write_self _ flags.OVERFLOW _ (by decide) (by decide)
  · rw [execute_bit_zp_registers]
    exact status_read_write_self _ flags.ZERO _ (by decide) (by decide)
  · rw [execute_bit_abs_registers, status_write_accumulator, status_write_accumulator,
      status_write_accumulator]
    rfl
  · rw [execute_bit_abs_registers,
      status_read_write_of_ne _ flags.NEGATIVE flags.ZERO _ (by decide) (by decide),
      status_read_write_of_ne _ flags.NEGATIVE flags.OVERFLOW _ (by decide) (by decide)]
    exact status_read_write_self _ flags.NEGATIVE _ (by decide) (by decide)
  · rw [execute_bit_abs_registers,
      status_read_write_of_ne _ flags.OVERFLOW flags.ZERO _ (by decide) (by decide)]
    exact status_read_write_self _ flags.OVERFLOW _ (by decide) (by decide)
  · rw [execute_bit_abs_registers]
    exact status_read_write_self _ flags.ZERO _ (by decide) (by decide)

/-- The last-match scan of `BranchMemory::read`: folding over the
entries keeping the latest whose start is at most the address selects the
last qualifying element, i.e. the first qualifying element of the
reversed list (or the accumulator when none qualifies). -/
lemma foldl_last_match_entries (address : Nat) (l : List (Nat × (Nat → Nat)))
    (acc : Option (Nat × (Nat → Nat))) :
    l.foldl (fun a e => if e.1 ≤ address then some e else a) acc =
      ((l.reverse.find? fun e => decide (e.1 ≤ address)).or acc) := by
  induction l generalizing acc with
  | nil => rfl
  | cons e t ih =>
    rw [List.foldl_cons, ih, List.reverse_cons, List.find?_append]
    by_cases hp : e.1 ≤ address
    · simp [List.find?, hp, Option.or_assoc]
    · simp [List.find?, hp]

/-- The last-match scan of `BranchMemory::write`, over the enumerated
entries. -/
lemma foldl_last_match_enum (address : Nat) (l : List (Nat × Nat × (Nat → Nat)))
    (acc : Option (Nat × Nat × (Nat → Nat))) :
    l.foldl (fun a e => if e.2.1 ≤ address then some e else a) acc =
      ((l.reverse.find? fun e => decide (e.2.1 ≤ address)).or acc) := by
  induction l generalizing acc with
  | nil => rfl
  | cons e t ih =>
    rw [List.foldl_cons, ih, List.reverse_cons, List.find?_append]
    by_cases hp : e.2.1 ≤ address
    · simp [List.find?, hp, Option.or_assoc]
    · simp [List.find?, hp]

/-- C6 counterexample: with regions declared out of ascending order —
starts `0x8000` (store returning 1) then `0x0000` (store returning 2) — a
read at `0x9000` delegates to the LAST declared qualifying entry (the
`0x0000` store, yielding 2), not to the store with the greatest
start ≤ address as the claim states (the `0x8000` store, yielding 1). -/
theorem router_greatest_start_counterexample :
    BranchMemory.read ⟨[(0x8000, fun _ => 1), (0x0000, fun _ => 2)]⟩ 0x9000 = 2 ∧
    specRead [(0x8000, fun _ => 1), (0x0000, fun _ => 2)] 0x9000 = 1 ∧
    BranchMemory.read ⟨[(0x8000, fun _ => 1), (0x0000, fun _ => 2)]⟩ 0x9000 ≠
      specRead [(0x8000, fun _ => 1), (0x0000, fun _ => 2)] 0x9000 :=
  ⟨rfl, rfl, by decide⟩

/-- C6 (amended): for every address `a`, a read through the router
delegates to the last entry in declaration order whose start is ≤ `a`,
at offset `a − start`, and a write delegates identically (updating that
same entry); if no entry has start ≤ `a` the read returns 0 and the
write is a no-op.  In particular, with regions declared at starts
`0x0000` and `0x8000` in that order, a read at `0x7FFF` delegates to the
first region at offset `0x7FFF` and a read at `0x8000` to the second
region at offset `0x0000`. -/
theorem router_delegates_to_last_match :
    (∀ (mapping : List (Nat × (Nat → Nat))) (a : Nat),
      BranchMemory.read ⟨mapping⟩ a =
        match mapping.reverse.find? (fun e => decide (e.1 ≤ a)) with
        | some (start, store) => store (a - start)
        | none => 0) ∧
    (∀ (mapping : List (Nat × (Nat → Nat))) (a v : Nat),
      BranchMemory.write ⟨mapping⟩ a v =
        match mapping.enum.reverse.find? (fun e => decide (e.2.1 ≤ a)) with
        | some (i, start, store) =>
          ⟨mapping.set i (start, fun off => if off = a - start then v else store off)⟩
        | none => ⟨mapping⟩) ∧
    (∀ (mapping : List (Nat × (Nat → Nat))) (a v : Nat),
      (∀ e ∈ mapping, a < e.1) →
        BranchMemory.read ⟨mapping⟩ a = 0 ∧ BranchMemory.write ⟨mapping⟩ a v = ⟨mapping⟩) ∧
    (∀ f g : Nat → Nat,
      BranchMemory.read ⟨[(0x0000, f), (0x8000, g)]⟩ 0x7FFF = f 0x7FFF ∧
      BranchMemory.read ⟨[(0x0000, f), (0x8000, g)]⟩ 0x8000 = g 0x0000) := by
  have hread : ∀ (mapping : List (Nat × (Nat → Nat))) (a : Nat),
      BranchMemory.read ⟨mapping⟩ a =
        match mapping.reverse.find? (fun e => decide (e.1 ≤ a)) with
        | some (start, store) => store (a - start)
        | none => 0 := by
    intro mapping a
    unfold BranchMemory.read
    rw [foldl_last_match_entries, Option.or_none]
  have hwrite : ∀ (mapping : List (Nat × (Nat → Nat))) (a v : Nat),
      BranchMemory.write ⟨mapping⟩ a v =
        match mapping.enum.reverse.find? (fun e => decide (e.2.1 ≤ a)) with
        | some (i, start, store) =>
          ⟨mapping.set i (start, fun off => if off = a - start then v else store off)⟩
        | none => ⟨mapping⟩ := by
    intro mapping a v
    unfold BranchMemory.write
    rw [foldl_last_match_enum, Option.or_none]
  refine ⟨hread, hwrite, ?_, fun f g => ⟨rfl, rfl⟩⟩
  intro mapping a v h
  constructor
  · rw [hread]
    have hn : mapping.reverse.find? (fun e => decide (e.1 ≤ a)) = none := by
      apply List.find?_eq_none.mpr
      intro x hx
      simp only [decide_eq_true_eq, Nat.not_le]
      exact h x (List.mem_reverse.mp hx)
    rw [hn]
  · rw [hwrite]
    have hn : mapping.enum.reverse.find? (fun e => decide (e.2.1 ≤ a)) = none := by
      apply List.find?_eq_none.mpr
      intro x hx
      simp only [decide_eq_true_eq, Nat.not_le]
      exact h x.2 (List.snd_mem_of_mem_enum (List.mem_reverse.mp hx))
    rw [hn]

/-- Witness for C6 on a concrete unmapped access: with the single region
starting at 5, both the read and the write at address 3 fall through —
the read returns 0 and the write leaves the mapping untouched. -/
theorem router_delegates_witness :
    BranchMemory.read ⟨[(5, fun _ => 9)]⟩ 3 = 0 ∧
    BranchMemory.write ⟨[(5, fun _ => 9)]⟩ 3 7 = ⟨[(5, fun _ => 9)]⟩ :=
  router_delegates_to_last_match.2.2.1 [(5, fun _ => 9)] 3 7 (by
    intro e he
    rw [List.mem_singleton] at he
    subst he
    decide)
